import Mathlib

/-!
# Verification of the sewage-tunnel pump-scheduling optimizer

Shallow embedding of the repository `svantehenriksson/sewage_flow`
(optimizer subsystem: `src/optimizer/tunnel_volume.py`, `src/optimizer/pumps.py`,
`src/optimizer/main.py`) over exact rational arithmetic, together with proofs
settling the spec claims about it.

Conventions:
* Python floats are modelled by `ℚ`; Python `int(x)` (truncation toward zero)
  is `intTrunc`; Python `round` (ties never occur at the call sites that
  matter, see `initIntervals`) is Mathlib's `round`.
* Functions that raise exceptions return `Option`.
* CP-SAT decision variables are modelled by assignment functions; integer
  variables that are forced by an equality constraint (`runtime`,
  `adjusted_runtime`, `runtime_min`, `excess_runtime`, the reified `is_low`
  literals) are inlined as derived expressions, keeping their domain bounds as
  explicit conjuncts of the constraint predicate.
-/

/-- Python `int()` on a rational: truncation toward zero. -/
def intTrunc (x : ℚ) : ℤ := if 0 ≤ x then ⌊x⌋ else -⌊-x⌋

/-- The 0/1 value of a CP-SAT Boolean variable. -/
def b2i (b : Bool) : ℤ := if b then 1 else 0

/-- Source `src/optimizer/tunnel_volume.py`, `tunnel_volume`: piecewise volume [m³] of the
tunnel as a function of water level `h` [m]; `none` models the two `ValueError`s
(`h < 0` and `h > 14.1`). -/
def tunnel_volume (h : ℚ) : Option ℚ :=
  if h < 0 then none
  else if h ≤ 0.4 then some 350
  else if h ≤ 6.0 then some ((1000 * (h - 0.4) ^ 2 / 2) * 5 + 350)
  else if h ≤ 8.7 then some (5500 * (h - 5.9) * 5 + 75975)
  else if h ≤ 14.1 then some ((5.5 * 5500 / 2 - (5.5 - (h - 8.6)) ^ 2 * 1000 / 2) * 5 + 150225)
  else none

/-- Total core of `tunnel_volume` (the value on the valid range `[0, 14.1]`). -/
def tvv (h : ℚ) : ℚ := (tunnel_volume h).getD 0

/-- The piecewise closed form of §4.1 of the spec, transcribed from the spec's own
bullet list (`h < 0` → error, `0 ≤ h ≤ 0.4` → 350, `0.4 < h ≤ 6.0`, `6.0 < h ≤ 8.7`,
`8.7 < h ≤ 14.1` → the three closed forms, `h > 14.1` → error). -/
def tunnel_volume_spec (h : ℚ) : Option ℚ :=
  if h < 0 then none
  else if 0 ≤ h ∧ h ≤ 0.4 then some 350
  else if 0.4 < h ∧ h ≤ 6.0 then some (((1000 * (h - 0.4) ^ 2) / 2) * 5 + 350)
  else if 6.0 < h ∧ h ≤ 8.7 then some (5500 * (h - 5.9) * 5 + 75975)
  else if 8.7 < h ∧ h ≤ 14.1 then
    some ((5.5 * 5500 / 2 - (5.5 - (h - 8.6)) ^ 2 * 1000 / 2) * 5 + 150225)
  else none

/-- Source `src/optimizer/pumps.py`, `small_pump`: (power kW, flow m³/h) at level `h`. -/
def small_pump (h : ℚ) : ℚ × ℚ := (185, 1150 + 600 * max 0 (min 4 h) / 4)

/-- Source `src/optimizer/pumps.py`, `big_pump`: (power kW, flow m³/h) at level `h`. -/
def big_pump (h : ℚ) : ℚ × ℚ := (350, 2500 + 1000 * max 0 (min 5 h) / 5)

/-- The small-pump curve as the spec (§4.2) states it:
`P = −(15/8)(30−h) + 240`, `Q = (−(83/4)(30−h) + 1128)·3.6`. -/
def small_pump_spec (h : ℚ) : ℚ × ℚ :=
  (-(15 / 8) * (30 - h) + 240, (-(83 / 4) * (30 - h) + 1128) * 3.6)

/-- The big-pump curve as the spec (§4.2) states it:
`P = −(43/15)(30−h) + 4269/10`, `Q = (−(110/3)(30−h) + 2080)·3.6`. -/
def big_pump_spec (h : ℚ) : ℚ × ℚ :=
  (-(43 / 15) * (30 - h) + 4269 / 10, (-(110 / 3) * (30 - h) + 2080) * 3.6)

/-- Fuel-indexed binary-search loop of `height_from_volume_approx`
(`src/optimizer/main.py` lines 23–32): while `high − low > 0.001`, evaluate the
geometry at the midpoint and shrink the bracket; afterwards return the midpoint.
`none` models either a geometry `ValueError` or exhaustion of the fuel (the
latter never happens, see the termination theorem for C9). -/
def bisect : ℕ → ℚ → ℚ → ℚ → Option ℚ
  | 0, _, _, _ => none
  | n + 1, low, high, volume =>
    if high - low ≤ 0.001 then some ((low + high) / 2)
    else
      match tunnel_volume ((low + high) / 2) with
      | none => none
      | some v =>
        if v < volume then bisect n ((low + high) / 2) high volume
        else bisect n low ((low + high) / 2) volume

/-- Source `src/optimizer/main.py`, `height_from_volume_approx`: approximate inverse of
`tunnel_volume` by binary search on `[0, 14.1]`; volumes `≤ 350` short-circuit
to height `0`.  Fuel 20 exceeds the 14 iterations the loop can take. -/
def height_from_volume_approx (volume : ℚ) : Option ℚ :=
  if volume ≤ 350 then some 0 else bisect 20 0 14.1 volume

/-! ## The optimisation model (`PumpOptimizer` in `src/optimizer/main.py`)

The eight pumps are indexed in the insertion order of `pump_types`
(`1.1, 1.2, 1.3, 1.4, 2.1, 2.2, 2.3, 2.4`), so indices 0 and 4 are the small
pumps. -/

/-- The data `PumpOptimizer.__init__` reads from the input file (already keyed
by pump index and with `locked`/`totalMinutes` defaulted to 0 for absent
pumps, mirroring the loader).  Inflow and price are total functions of the
interval index; the model only ever reads indices below the horizon. -/
structure OptInput where
  horizonHours : ℕ
  initialWaterLevel : ℚ
  waterInflow : ℕ → ℚ
  priceCents : ℕ → ℚ
  initOn : Fin 8 → Bool
  lockedMinutes : Fin 8 → ℕ
  totalMinutes : Fin 8 → ℕ
  underThresholdWithinMinutes : Option ℕ

/-- Embeds `self.num_intervals = time_horizon_hours * intervals_per_hour` (4/h). -/
def numIntervals (I : OptInput) : ℕ := I.horizonHours * 4

/-- Embeds `self.interval_hours = 0.25`. -/
def intervalHours : ℚ := 0.25

/-- Embeds `self.min_water_level = 0.0`. -/
def minWaterLevel : ℚ := 0

/-- Embeds `self.max_water_level = 8.0`. -/
def maxWaterLevel : ℚ := 8

/-- Embeds `self.low_level_threshold = 0.5`. -/
def lowLevelThreshold : ℚ := 0.5

/-- Embeds `self.min_on_off_intervals = 8`. -/
def minOnOffIntervals : ℕ := 8

/-- Embeds `self.max_flow_per_interval = 4000`. -/
def maxFlowPerInterval : ℤ := 4000

/-- Embeds `self.empty_tank_threshold = 144000`. -/
def emptyTankThreshold : ℚ := 144000

/-- Embeds `self.pump_types`: pumps `1.1` (index 0) and `2.1` (index 4) are small. -/
def pumpIsSmall (p : Fin 8) : Bool := p.val == 0 || p.val == 4

/-- Embeds `PumpOptimizer.get_pump_specs`. -/
def get_pump_specs (p : Fin 8) (h : ℚ) : ℚ × ℚ :=
  if pumpIsSmall p then small_pump h else big_pump h

/-- Embeds `avg_water_level = (min + max) / 2` (= 4.0). -/
def avgWaterLevel : ℚ := (minWaterLevel + maxWaterLevel) / 2

/-- Embeds `pump_avg_specs[p]`: specs at the mid-range level. -/
def pumpAvgSpecs (p : Fin 8) : ℚ × ℚ := get_pump_specs p avgWaterLevel

/-- Embeds `outflow_per_interval = int(flow_rate * self.interval_hours)` with the
mid-range flow (constraint 2 of `solve`). -/
def qModel (p : Fin 8) : ℤ := intTrunc ((pumpAvgSpecs p).2 * intervalHours)

/-- Embeds `flow_per_interval = int(flow_rate * self.interval_hours)` with the flow at
the maximum level (constraint 4 of `solve`). -/
def qMax (p : Fin 8) : ℤ := intTrunc ((get_pump_specs p maxWaterLevel).2 * intervalHours)

/-- Embeds `locked_intervals = int((locked_minutes + 14) // 15)`. -/
def lockedIntervalsOf (I : OptInput) (p : Fin 8) : ℕ := (I.lockedMinutes p + 14) / 15

/-- Embeds `initial_intervals = int(round(initial_minutes / interval_minutes))` with
`interval_minutes = 15`.  Python rounds half-to-even; an integer number of
minutes divided by 15 is never an exact half, so Mathlib's `round` agrees. -/
def initIntervals (I : OptInput) (p : Fin 8) : ℤ := round ((I.totalMinutes p : ℚ) / 15)

/-- Embeds `self.initial_volume = tunnel_volume(initial_water_level)` (total core). -/
def initialVolume (I : OptInput) : ℚ := tvv I.initialWaterLevel

/-- Embeds `low_level_volume = int(tunnel_volume(0.5))`. -/
def lowLevelVolume : ℤ := intTrunc (tvv lowLevelThreshold)

/-- Embeds `v_min = int(self.min_volume)` — lower end of every volume variable. -/
def volumeLB : ℤ := intTrunc (tvv minWaterLevel)

/-- Embeds `v_max = int(self.max_volume * 1.5)` — upper end of every volume variable. -/
def volumeUB : ℤ := intTrunc (tvv maxWaterLevel * 1.5)

/-- Embeds `self.electricity_price[t] = electricity_price_cents[t] / 100`. -/
def electricityPrice (I : OptInput) (t : ℕ) : ℚ := I.priceCents t / 100

/-- A valuation of the decision variables `pump_on`, `pump_switch`, `volume`.
The integer variables forced by equality constraints are derived below. -/
structure PumpAssignment where
  pumpOn : Fin 8 → ℕ → Bool
  pumpSwitch : Fin 8 → ℕ → Bool
  volume : ℕ → ℤ

/-- The previous on/off state: `pump_on[p][t-1]`, with the pump's initial
state standing in at `t = 0`. -/
def prevOn (I : OptInput) (A : PumpAssignment) (p : Fin 8) (t : ℕ) : Bool :=
  if t = 0 then I.initOn p else A.pumpOn p (t - 1)

/-- Embeds `runtime_intervals[p] = sum(pump_on[p][t] for t in range(N))`. -/
def runtime (I : OptInput) (A : PumpAssignment) (p : Fin 8) : ℤ :=
  ∑ t ∈ Finset.range (numIntervals I), b2i (A.pumpOn p t)

/-- Embeds `adjusted_runtime[p] = runtime_intervals[p] + initial_intervals`. -/
def adjustedRuntime (I : OptInput) (A : PumpAssignment) (p : Fin 8) : ℤ :=
  runtime I A p + initIntervals I p

/-- Embeds `runtime_min_Small` (`AddMinEquality` over the small pumps 0 and 4). -/
def smallRunMin (I : OptInput) (A : PumpAssignment) : ℤ :=
  min (adjustedRuntime I A 0) (adjustedRuntime I A 4)

/-- Embeds `runtime_min_Big` (`AddMinEquality` over the big pumps 1,2,3,5,6,7). -/
def bigRunMin (I : OptInput) (A : PumpAssignment) : ℤ :=
  min (adjustedRuntime I A 1) (min (adjustedRuntime I A 2) (min (adjustedRuntime I A 3)
    (min (adjustedRuntime I A 5) (min (adjustedRuntime I A 6) (adjustedRuntime I A 7)))))

/-- The per-category reference runtime for a pump. -/
def runMinOf (I : OptInput) (A : PumpAssignment) (p : Fin 8) : ℤ :=
  if pumpIsSmall p then smallRunMin I A else bigRunMin I A

/-- Embeds `excess_runtime[p] = adjusted_runtime[p] - runtime_min`. -/
def excessRuntime (I : OptInput) (A : PumpAssignment) (p : Fin 8) : ℤ :=
  adjustedRuntime I A p - runMinOf I A p

/-- Embeds `min_cat_initial` for the small category. -/
def smallInitMin (I : OptInput) : ℤ := min (initIntervals I 0) (initIntervals I 4)

/-- Embeds `max_cat_initial` for the small category. -/
def smallInitMax (I : OptInput) : ℤ := max (initIntervals I 0) (initIntervals I 4)

/-- Embeds `min_cat_initial` for the big category. -/
def bigInitMin (I : OptInput) : ℤ :=
  min (initIntervals I 1) (min (initIntervals I 2) (min (initIntervals I 3)
    (min (initIntervals I 5) (min (initIntervals I 6) (initIntervals I 7)))))

/-- Embeds `max_cat_initial` for the big category. -/
def bigInitMax (I : OptInput) : ℤ :=
  max (initIntervals I 1) (max (initIntervals I 2) (max (initIntervals I 3)
    (max (initIntervals I 5) (max (initIntervals I 6) (initIntervals I 7)))))

/-- Embeds `min_cat_initial` of the category of pump `p`. -/
def catInitMin (I : OptInput) (p : Fin 8) : ℤ :=
  if pumpIsSmall p then smallInitMin I else bigInitMin I

/-- Embeds `max_cat_initial` of the category of pump `p`. -/
def catInitMax (I : OptInput) (p : Fin 8) : ℤ :=
  if pumpIsSmall p then smallInitMax I else bigInitMax I

/-- The constraint set emitted by `PumpOptimizer.solve` (lines 253–477), one
field per emission site, in source order.  Reified `is_low` literals and the
`sum ≥ 1` over them are folded into the equivalent bounded existentials; the
always-empty `fixed_schedules` dictionary contributes nothing; the objective
and the solution hints constrain nothing. -/
@[mk_iff]
structure SatisfiesModel (I : OptInput) (A : PumpAssignment) : Prop where
  switch_start : ∀ p : Fin 8,
    b2i (A.pumpSwitch p 0) = if I.initOn p then 1 - b2i (A.pumpOn p 0) else b2i (A.pumpOn p 0)
  switch_step : ∀ p : Fin 8, ∀ t, t < numIntervals I → 0 < t →
    b2i (A.pumpOn p t) - b2i (A.pumpOn p (t - 1)) ≤ b2i (A.pumpSwitch p t) ∧
    b2i (A.pumpOn p (t - 1)) - b2i (A.pumpOn p t) ≤ b2i (A.pumpSwitch p t)
  volume_var_domain : ∀ t, t ≤ numIntervals I →
    volumeLB ≤ A.volume t ∧ A.volume t ≤ volumeUB
  volume_start : A.volume 0 = intTrunc (initialVolume I)
  initial_lock : ∀ p : Fin 8, ∀ t, t < min (lockedIntervalsOf I p) (numIntervals I) →
    A.pumpOn p t = I.initOn p
  always_one_pump : ∀ t, t < numIntervals I → 1 ≤ ∑ p : Fin 8, b2i (A.pumpOn p t)
  runtime_bounds : ∀ p : Fin 8,
    0 ≤ runtime I A p ∧ runtime I A p ≤ (numIntervals I : ℤ)
  adjusted_bounds : ∀ p : Fin 8,
    initIntervals I p ≤ adjustedRuntime I A p ∧
    adjustedRuntime I A p ≤ initIntervals I p + (numIntervals I : ℤ)
  volume_dynamics : ∀ t, t < numIntervals I →
    A.volume (t + 1) = A.volume t + intTrunc (I.waterInflow t)
      - ∑ p : Fin 8, b2i (A.pumpOn p t) * qModel p
  volume_level_bounds : ∀ t, t ≤ numIntervals I →
    intTrunc (tvv minWaterLevel) ≤ A.volume t ∧ A.volume t ≤ intTrunc (tvv maxWaterLevel)
  max_flow : ∀ t, t < numIntervals I →
    ∑ p : Fin 8, b2i (A.pumpOn p t) * qMax p ≤ maxFlowPerInterval
  dwell_keep_on : ∀ p : Fin 8, ∀ t, t < numIntervals I - 1 →
    t + minOnOffIntervals ≤ numIntervals I → ∀ d, d < minOnOffIntervals → 1 ≤ d →
    b2i (A.pumpOn p t) - b2i (prevOn I A p t) ≤ b2i (A.pumpOn p (t + d))
  dwell_keep_off : ∀ p : Fin 8, ∀ t, t < numIntervals I - 1 →
    t + minOnOffIntervals ≤ numIntervals I → ∀ d, d < minOnOffIntervals → 1 ≤ d →
    b2i (prevOn I A p t) - b2i (A.pumpOn p t) + b2i (A.pumpOn p (t + d)) ≤ 1
  deadline_visit : ∀ dl ∈ I.underThresholdWithinMinutes,
    ∃ t ∈ Finset.range (min (dl / 15) (numIntervals I) + 1), A.volume t ≤ lowLevelVolume
  daily_low_visit : ∀ k, k < I.horizonHours / 24 →
    (∑ t ∈ Finset.Ico (96 * k) (min (96 * (k + 1)) (numIntervals I)), I.waterInflow t)
      ≤ emptyTankThreshold →
    ∃ t ∈ Finset.Ico (96 * k) (min (96 * (k + 1) + 1) (numIntervals I + 1)),
      A.volume t ≤ lowLevelVolume
  runmin_small_domain : smallInitMin I ≤ smallRunMin I A ∧
    smallRunMin I A ≤ smallInitMax I + (numIntervals I : ℤ)
  runmin_big_domain : bigInitMin I ≤ bigRunMin I A ∧
    bigRunMin I A ≤ bigInitMax I + (numIntervals I : ℤ)
  excess_domain : ∀ p : Fin 8, 0 ≤ excessRuntime I A p ∧
    excessRuntime I A p ≤ (catInitMax I p - catInitMin I p) + (numIntervals I : ℤ)

/-- Post-hoc reported cost (`actual_electricity_cost`, `main.py` lines 606–614
and the identical loop in `IntermediateSolutionPrinter._save_current_solution`):
for every active pump, `power_kw * interval_hours * electricity_price[t]`, with
the power taken from `pump_avg_specs`. -/
def totalCostEur (I : OptInput) (A : PumpAssignment) : ℚ :=
  ∑ t ∈ Finset.range (numIntervals I), ∑ p : Fin 8,
    if A.pumpOn p t then (pumpAvgSpecs p).1 * intervalHours * electricityPrice I t else 0

/-- The reconstructed water level of the solution extractor:
`height_from_volume_approx(Value(volume[t]))`. -/
def waterLevelAt (A : PumpAssignment) (t : ℕ) : ℚ :=
  (height_from_volume_approx ((A.volume t : ℚ))).getD 0

/-- The cost formula as the spec states it (§8): the sum over intervals of
`Σ_{p active} P(h(V[t]))·Δ·price[t]`, with the power evaluated at the
reconstructed level. -/
def specCostFormula (I : OptInput) (A : PumpAssignment) : ℚ :=
  ∑ t ∈ Finset.range (numIntervals I), ∑ p : Fin 8,
    if A.pumpOn p t then (get_pump_specs p (waterLevelAt A t)).1 * intervalHours * electricityPrice I t
    else 0

/-- Embeds `solver.parameters` as set in `PumpOptimizer.solve` (lines 575–580). -/
structure SolverParams where
  maxTimeInSeconds : ℚ
  numSearchWorkers : ℕ
  linearizationLevel : ℕ
  cpModelPresolve : Bool

/-- The concrete parameter values the search driver sets. -/
def solverParams : SolverParams :=
  { maxTimeInSeconds := 300
    numSearchWorkers := 8
    linearizationLevel := 2
    cpModelPresolve := true }

/-! ## Concrete scenarios used as witnesses and counterexamples

All use a 4-hour horizon (16 intervals), constant inflow 437 m³ per interval
(exactly one small pump's model outflow), and constant prices, so the volume
traces are easy to read off. -/

/-- Scenario with a 4 h horizon, level 4 m, pump 0 initially on, nothing locked, no deadline,
price 5 c/kWh. -/
def inst1 : OptInput :=
  { horizonHours := 4
    initialWaterLevel := 4
    waterInflow := fun _ => 437
    priceCents := fun _ => 5
    initOn := fun p => p.val == 0
    lockedMinutes := fun _ => 0
    totalMinutes := fun _ => 0
    underThresholdWithinMinutes := none }

/-- Same as `inst1` but with a negative electricity price (−10 c/kWh). -/
def inst2 : OptInput :=
  { horizonHours := 4
    initialWaterLevel := 4
    waterInflow := fun _ => 437
    priceCents := fun _ => -10
    initOn := fun p => p.val == 0
    lockedMinutes := fun _ => 0
    totalMinutes := fun _ => 0
    underThresholdWithinMinutes := none }

/-- Scenario with a 4 h horizon, level 0.5 m (volume 375), all pumps initially off, nothing
locked, deadline `underThresholdWithinMinutes = 60`. -/
def inst3 : OptInput :=
  { horizonHours := 4
    initialWaterLevel := 0.5
    waterInflow := fun _ => 437
    priceCents := fun _ => 5
    initOn := fun _ => false
    lockedMinutes := fun _ => 0
    totalMinutes := fun _ => 0
    underThresholdWithinMinutes := some 60 }

/-- Scenario with a 4 h horizon, level 4 m, pump 0 initially on and locked for 300 minutes
(20 intervals > the 16-interval horizon). -/
def inst4 : OptInput :=
  { horizonHours := 4
    initialWaterLevel := 4
    waterInflow := fun _ => 437
    priceCents := fun _ => 5
    initOn := fun p => p.val == 0
    lockedMinutes := fun p => if p.val == 0 then 300 else 0
    totalMinutes := fun _ => 0
    underThresholdWithinMinutes := none }

/-- Pump 0 always on; pump 1 on exactly at `t = 9` (a state change at `t = 9`
followed by another at `t = 10`, both in the final 7 intervals where the code
emits no dwell constraints). -/
def A1 : PumpAssignment :=
  { pumpOn := fun p t => p.val == 0 || (p.val == 1 && t == 9)
    pumpSwitch := fun p t => p.val == 1 && (t == 9 || t == 10)
    volume := fun t => if t ≤ 9 then 32750 else 31925 }

/-- Pump 0 switches on at `t = 0` and stays on; the volume sits at 375. -/
def A3 : PumpAssignment :=
  { pumpOn := fun p _ => p.val == 0
    pumpSwitch := fun p t => p.val == 0 && t == 0
    volume := fun _ => 375 }

/-- Pump 0 on for the whole horizon (it is locked on); volume constant. -/
def A4 : PumpAssignment :=
  { pumpOn := fun p _ => p.val == 0
    pumpSwitch := fun _ _ => false
    volume := fun _ => 32750 }

/-! ## Basic evaluation lemmas -/

theorem bisect_exit (n : ℕ) {low high v : ℚ} (hw : high - low ≤ 0.001) :
    bisect (n + 1) low high v = some ((low + high) / 2) := by
  rw [bisect, if_pos hw]

theorem bisect_step_low (n : ℕ) (low high v w : ℚ) (hw : ¬ high - low ≤ 0.001)
    (hm : tunnel_volume ((low + high) / 2) = some w) (hlt : w < v) :
    bisect (n + 1) low high v = bisect n ((low + high) / 2) high v := by
  rw [bisect, if_neg hw, hm]; exact if_pos hlt

theorem bisect_step_high (n : ℕ) (low high v w : ℚ) (hw : ¬ high - low ≤ 0.001)
    (hm : tunnel_volume ((low + high) / 2) = some w) (hge : ¬ w < v) :
    bisect (n + 1) low high v = bisect n low ((low + high) / 2) v := by
  rw [bisect, if_neg hw, hm]; exact if_neg hge

theorem lowLevelVolume_eq : lowLevelVolume = 375 := by
  norm_num [lowLevelVolume, lowLevelThreshold, tvv, tunnel_volume, intTrunc]

theorem volumeLB_eq : volumeLB = 350 := by
  norm_num [volumeLB, minWaterLevel, tvv, tunnel_volume, intTrunc]

theorem volumeUB_eq : volumeUB = 200587 := by
  norm_num [volumeUB, maxWaterLevel, tvv, tunnel_volume, intTrunc]

theorem tvv_min_level_eq : intTrunc (tvv minWaterLevel) = 350 := by
  norm_num [minWaterLevel, tvv, tunnel_volume, intTrunc]

theorem tvv_max_level_eq : intTrunc (tvv maxWaterLevel) = 133725 := by
  norm_num [maxWaterLevel, tvv, tunnel_volume, intTrunc]

theorem qModel_eq (p : Fin 8) : qModel p = if pumpIsSmall p then 437 else 825 := by
  unfold qModel pumpAvgSpecs get_pump_specs
  cases h : pumpIsSmall p <;>
    simp only [h, if_true, if_false, Bool.false_eq_true] <;>
    norm_num [small_pump, big_pump, intTrunc, intervalHours, avgWaterLevel,
      minWaterLevel, maxWaterLevel]

theorem qMax_eq (p : Fin 8) : qMax p = if pumpIsSmall p then 437 else 875 := by
  unfold qMax get_pump_specs
  cases h : pumpIsSmall p <;>
    simp only [h, if_true, if_false, Bool.false_eq_true] <;>
    norm_num [small_pump, big_pump, intTrunc, intervalHours, maxWaterLevel]

theorem initialVolume3_eq : intTrunc (initialVolume inst3) = 375 := by
  norm_num [initialVolume, inst3, tvv, tunnel_volume, intTrunc]

theorem inflow3_eq (t : ℕ) : intTrunc (inst3.waterInflow t) = 437 := by
  norm_num [inst3, intTrunc]

theorem initIntervals3_eq (p : Fin 8) : initIntervals inst3 p = 0 := by
  norm_num [initIntervals, inst3]

theorem sat3 : SatisfiesModel inst3 A3 := by
  constructor
  · decide
  · decide
  · simp only [volumeLB_eq, volumeUB_eq]; decide
  · simp only [initialVolume3_eq]; decide
  · decide
  · decide
  · decide
  · simp only [adjustedRuntime, runtime, initIntervals3_eq]; decide
  · simp only [inflow3_eq, qModel_eq]; decide
  · simp only [tvv_min_level_eq, tvv_max_level_eq]; decide
  · simp only [qMax_eq]; decide
  · decide
  · decide
  · intro dl hdl
    simp only [show inst3.underThresholdWithinMinutes = some 60 from rfl,
      Option.mem_def, Option.some.injEq] at hdl
    subst hdl
    simp only [lowLevelVolume_eq]
    decide
  · intro k hk
    exact absurd hk (Nat.not_lt_zero k)
  · simp only [smallRunMin, smallInitMin, smallInitMax, adjustedRuntime, runtime,
      initIntervals3_eq]; decide
  · simp only [bigRunMin, bigInitMin, bigInitMax, adjustedRuntime, runtime,
      initIntervals3_eq]; decide
  · simp only [excessRuntime, runMinOf, smallRunMin, bigRunMin, catInitMin, catInitMax,
      smallInitMin, smallInitMax, bigInitMin, bigInitMax, adjustedRuntime, runtime,
      initIntervals3_eq]; decide

theorem initialVolume1_eq : intTrunc (initialVolume inst1) = 32750 := by
  norm_num [initialVolume, inst1, tvv, tunnel_volume, intTrunc]

theorem inflow1_eq (t : ℕ) : intTrunc (inst1.waterInflow t) = 437 := by
  norm_num [inst1, intTrunc]

theorem initIntervals1_eq (p : Fin 8) : initIntervals inst1 p = 0 := by
  norm_num [initIntervals, inst1]

theorem sat1 : SatisfiesModel inst1 A1 := by
  constructor
  · decide
  · decide
  · simp only [volumeLB_eq, volumeUB_eq]; decide
  · simp only [initialVolume1_eq]; decide
  · decide
  · decide
  · decide
  · simp only [adjustedRuntime, runtime, initIntervals1_eq]; decide
  · simp only [inflow1_eq, qModel_eq]; decide
  · simp only [tvv_min_level_eq, tvv_max_level_eq]; decide
  · simp only [qMax_eq]; decide
  · decide
  · decide
  · intro dl hdl
    exact absurd hdl (Option.not_mem_none dl)
  · intro k hk
    exact absurd hk (Nat.not_lt_zero k)
  · simp only [smallRunMin, smallInitMin, smallInitMax, adjustedRuntime, runtime,
      initIntervals1_eq]; decide
  · simp only [bigRunMin, bigInitMin, bigInitMax, adjustedRuntime, runtime,
      initIntervals1_eq]; decide
  · simp only [excessRuntime, runMinOf, smallRunMin, bigRunMin, catInitMin, catInitMax,
      smallInitMin, smallInitMax, bigInitMin, bigInitMax, adjustedRuntime, runtime,
      initIntervals1_eq]; decide

theorem initialVolume2_eq : intTrunc (initialVolume inst2) = 32750 := by
  norm_num [initialVolume, inst2, tvv, tunnel_volume, intTrunc]

theorem inflow2_eq (t : ℕ) : intTrunc (inst2.waterInflow t) = 437 := by
  norm_num [inst2, intTrunc]

theorem initIntervals2_eq (p : Fin 8) : initIntervals inst2 p = 0 := by
  norm_num [initIntervals, inst2]

theorem sat2 : SatisfiesModel inst2 A1 := by
  constructor
  · decide
  · decide
  · simp only [volumeLB_eq, volumeUB_eq]; decide
  · simp only [initialVolume2_eq]; decide
  · decide
  · decide
  · decide
  · simp only [adjustedRuntime, runtime, initIntervals2_eq]; decide
  · simp only [inflow2_eq, qModel_eq]; decide
  · simp only [tvv_min_level_eq, tvv_max_level_eq]; decide
  · simp only [qMax_eq]; decide
  · decide
  · decide
  · intro dl hdl
    exact absurd hdl (Option.not_mem_none dl)
  · intro k hk
    exact absurd hk (Nat.not_lt_zero k)
  · simp only [smallRunMin, smallInitMin, smallInitMax, adjustedRuntime, runtime,
      initIntervals2_eq]; decide
  · simp only [bigRunMin, bigInitMin, bigInitMax, adjustedRuntime, runtime,
      initIntervals2_eq]; decide
  · simp only [excessRuntime, runMinOf, smallRunMin, bigRunMin, catInitMin, catInitMax,
      smallInitMin, smallInitMax, bigInitMin, bigInitMax, adjustedRuntime, runtime,
      initIntervals2_eq]; decide

theorem initialVolume4_eq : intTrunc (initialVolume inst4) = 32750 := by
  norm_num [initialVolume, inst4, tvv, tunnel_volume, intTrunc]

theorem inflow4_eq (t : ℕ) : intTrunc (inst4.waterInflow t) = 437 := by
  norm_num [inst4, intTrunc]

theorem initIntervals4_eq (p : Fin 8) : initIntervals inst4 p = 0 := by
  norm_num [initIntervals, inst4]

theorem sat4 : SatisfiesModel inst4 A4 := by
  constructor
  · decide
  · decide
  · simp only [volumeLB_eq, volumeUB_eq]; decide
  · simp only [initialVolume4_eq]; decide
  · decide
  · decide
  · decide
  · simp only [adjustedRuntime, runtime, initIntervals4_eq]; decide
  · simp only [inflow4_eq, qModel_eq]; decide
  · simp only [tvv_min_level_eq, tvv_max_level_eq]; decide
  · simp only [qMax_eq]; decide
  · decide
  · decide
  · intro dl hdl
    exact absurd hdl (Option.not_mem_none dl)
  · intro k hk
    exact absurd hk (Nat.not_lt_zero k)
  · simp only [smallRunMin, smallInitMin, smallInitMax, adjustedRuntime, runtime,
      initIntervals4_eq]; decide
  · simp only [bigRunMin, bigInitMin, bigInitMax, adjustedRuntime, runtime,
      initIntervals4_eq]; decide
  · simp only [excessRuntime, runMinOf, smallRunMin, bigRunMin, catInitMin, catInitMax,
      smallInitMin, smallInitMax, bigInitMin, bigInitMax, adjustedRuntime, runtime,
      initIntervals4_eq]; decide

/-! ## Piecewise evaluation of the geometry -/

theorem tvv_flat {h : ℚ} (h0 : 0 ≤ h) (h1 : h ≤ 2/5) : tvv h = 350 := by
  unfold tvv tunnel_volume
  rw [if_neg (not_lt.2 h0), if_pos (by rw [show (0.4:ℚ) = 2/5 by norm_num]; exact h1)]
  rfl

theorem tvv_seg1 {h : ℚ} (h0 : 2/5 < h) (h1 : h ≤ 6) : tvv h = 2500 * (h - 2/5) ^ 2 + 350 := by
  unfold tvv tunnel_volume
  rw [if_neg (not_lt.2 (by linarith)),
    if_neg (by rw [show (0.4:ℚ) = 2/5 by norm_num]; exact not_le.2 h0),
    if_pos (show h ≤ (6.0:ℚ) by rw [show (6.0:ℚ) = 6 by norm_num]; exact h1)]
  show (1000 * (h - 0.4) ^ 2 / 2) * 5 + 350 = _
  rw [show (0.4:ℚ) = 2/5 by norm_num]
  ring

theorem tvv_seg2 {h : ℚ} (h0 : 6 < h) (h1 : h ≤ 87/10) : tvv h = 27500 * h - 86275 := by
  unfold tvv tunnel_volume
  rw [if_neg (not_lt.2 (by linarith)),
    if_neg (show ¬ h ≤ (0.4:ℚ) by rw [show (0.4:ℚ) = 2/5 by norm_num]; intro hc; linarith),
    if_neg (show ¬ h ≤ (6.0:ℚ) by rw [show (6.0:ℚ) = 6 by norm_num]; exact not_le.2 h0),
    if_pos (show h ≤ (8.7:ℚ) by rw [show (8.7:ℚ) = 87/10 by norm_num]; exact h1)]
  show 5500 * (h - 5.9) * 5 + 75975 = _
  rw [show (5.9:ℚ) = 59/10 by norm_num]
  ring

theorem tvv_seg3 {h : ℚ} (h0 : 87/10 < h) (h1 : h ≤ 141/10) :
    tvv h = 225850 - 2500 * (141/10 - h) ^ 2 := by
  unfold tvv tunnel_volume
  rw [if_neg (not_lt.2 (by linarith)),
    if_neg (show ¬ h ≤ (0.4:ℚ) by rw [show (0.4:ℚ) = 2/5 by norm_num]; intro hc; linarith),
    if_neg (show ¬ h ≤ (6.0:ℚ) by rw [show (6.0:ℚ) = 6 by norm_num]; intro hc; linarith),
    if_neg (show ¬ h ≤ (8.7:ℚ) by rw [show (8.7:ℚ) = 87/10 by norm_num]; exact not_le.2 h0),
    if_pos (show h ≤ (14.1:ℚ) by rw [show (14.1:ℚ) = 141/10 by norm_num]; exact h1)]
  show (5.5 * 5500 / 2 - (5.5 - (h - 8.6)) ^ 2 * 1000 / 2) * 5 + 150225 = _
  rw [show (5.5:ℚ) = 11/2 by norm_num, show (8.6:ℚ) = 43/5 by norm_num]
  ring

/-! ## Claim C8 — solver parameters -/

/-- C8: the search driver sets 8 workers, linearisation level 2 and presolve as
claimed, but the wall-clock deadline is 300 s, not the claimed/commented 120 s
(`solver.parameters.max_time_in_seconds = 300.0` under the comment
"2 minutes timeout"). -/
theorem C8_solver_parameters :
    solverParams.numSearchWorkers = 8 ∧ solverParams.linearizationLevel = 2 ∧
    solverParams.cpModelPresolve = true ∧ solverParams.maxTimeInSeconds = 300 ∧
    solverParams.maxTimeInSeconds ≠ 120 :=
  ⟨rfl, rfl, rfl, rfl, by norm_num [solverParams]⟩

/-! ## Claim C6 — the geometry matches the spec's closed form -/

/-- C6: `tunnel_volume` agrees with the spec's §4.1 piecewise closed form
everywhere, including the two error regions `h < 0` and `h > 14.1`. -/
theorem C6_tunnel_volume_matches_spec (h : ℚ) : tunnel_volume h = tunnel_volume_spec h := by
  unfold tunnel_volume tunnel_volume_spec
  rcases lt_or_le h 0 with c0 | c0
  · rw [if_pos c0, if_pos c0]
  rcases le_or_lt h 0.4 with c1 | c1
  · rw [if_neg (not_lt.2 c0), if_pos c1, if_neg (not_lt.2 c0), if_pos ⟨c0, c1⟩]
  rcases le_or_lt h 6.0 with c2 | c2
  · rw [if_neg (not_lt.2 c0), if_neg (not_le.2 c1), if_pos c2, if_neg (not_lt.2 c0),
      if_neg (fun hc => absurd hc.2 (not_le.2 c1)), if_pos ⟨c1, c2⟩]
  rcases le_or_lt h 8.7 with c3 | c3
  · rw [if_neg (not_lt.2 c0), if_neg (not_le.2 c1), if_neg (not_le.2 c2), if_pos c3,
      if_neg (not_lt.2 c0), if_neg (fun hc => absurd hc.2 (not_le.2 c1)),
      if_neg (fun hc => absurd hc.2 (not_le.2 c2)), if_pos ⟨c2, c3⟩]
  rcases le_or_lt h 14.1 with c4 | c4
  · rw [if_neg (not_lt.2 c0), if_neg (not_le.2 c1), if_neg (not_le.2 c2),
      if_neg (not_le.2 c3), if_pos c4, if_neg (not_lt.2 c0),
      if_neg (fun hc => absurd hc.2 (not_le.2 c1)),
      if_neg (fun hc => absurd hc.2 (not_le.2 c2)),
      if_neg (fun hc => absurd hc.2 (not_le.2 c3)), if_pos ⟨c3, c4⟩]
  · rw [if_neg (not_lt.2 c0), if_neg (not_le.2 c1), if_neg (not_le.2 c2),
      if_neg (not_le.2 c3), if_neg (not_le.2 c4), if_neg (not_lt.2 c0),
      if_neg (fun hc => absurd hc.2 (not_le.2 c1)),
      if_neg (fun hc => absurd hc.2 (not_le.2 c2)),
      if_neg (fun hc => absurd hc.2 (not_le.2 c3)),
      if_neg (fun hc => absurd hc.2 (not_le.2 c4))]

/-! ## Claim C5 — the pump catalog -/

/-- C5 counterexample: at `h = 4` neither pump matches the spec's linear forms
(code small pump: power 185, flow 1750; spec: 191.25 and 2118.6; code big pump:
power 350, flow 3300; spec: 352.3666… and 4056). -/
theorem C5_counterexample :
    (small_pump 4).1 ≠ (small_pump_spec 4).1 ∧ (small_pump 4).2 ≠ (small_pump_spec 4).2 ∧
    (big_pump 4).1 ≠ (big_pump_spec 4).1 ∧ (big_pump 4).2 ≠ (big_pump_spec 4).2 := by
  refine ⟨?_, ?_, ?_, ?_⟩ <;>
    norm_num [small_pump, big_pump, small_pump_spec, big_pump_spec]

/-- C5 amended: what the catalog actually returns — constant powers (185 kW
small, 350 kW big) and flows interpolated linearly in the level clamped to
[0, 4] (small: 1150→1750 m³/h) resp. [0, 5] (big: 2500→3500 m³/h). -/
theorem C5_pump_catalog (h : ℚ) :
    (small_pump h).1 = 185 ∧ (big_pump h).1 = 350 ∧
    (h ≤ 0 → (small_pump h).2 = 1150) ∧
    (0 ≤ h → h ≤ 4 → (small_pump h).2 = 1150 + 150 * h) ∧
    (4 ≤ h → (small_pump h).2 = 1750) ∧
    (h ≤ 0 → (big_pump h).2 = 2500) ∧
    (0 ≤ h → h ≤ 5 → (big_pump h).2 = 2500 + 200 * h) ∧
    (5 ≤ h → (big_pump h).2 = 3500) := by
  refine ⟨rfl, rfl, ?_, ?_, ?_, ?_, ?_, ?_⟩
  · intro hle
    show 1150 + 600 * max 0 (min 4 h) / 4 = 1150
    rw [min_eq_right (by linarith), max_eq_left hle]
    norm_num
  · intro hge hle
    show 1150 + 600 * max 0 (min 4 h) / 4 = 1150 + 150 * h
    rw [min_eq_right hle, max_eq_right hge]
    ring
  · intro hge
    show 1150 + 600 * max 0 (min 4 h) / 4 = 1750
    rw [min_eq_left hge, max_eq_right (by norm_num)]
    norm_num
  · intro hle
    show 2500 + 1000 * max 0 (min 5 h) / 5 = 2500
    rw [min_eq_right (by linarith), max_eq_left hle]
    norm_num
  · intro hge hle
    show 2500 + 1000 * max 0 (min 5 h) / 5 = 2500 + 200 * h
    rw [min_eq_right hle, max_eq_right hge]
    ring
  · intro hge
    show 2500 + 1000 * max 0 (min 5 h) / 5 = 3500
    rw [min_eq_left hge, max_eq_right (by norm_num)]
    norm_num

/-- Witness for C5: the small pump at `h = 2` delivers `1150 + 150·2` m³/h. -/
theorem C5_pump_catalog_witness :
    (0:ℚ) ≤ 2 ∧ (2:ℚ) ≤ 4 ∧ (small_pump 2).2 = 1150 + 150 * 2 :=
  ⟨by norm_num, by norm_num, (C5_pump_catalog 2).2.2.2.1 (by norm_num) (by norm_num)⟩

/-! ## Claim C4 — monotonicity of the geometry -/

/-- C4 counterexample: `tunnel_volume` is *not* strictly increasing beyond
0.4 m: it drops from 78750 at `h = 6` to 78727.75 at `h = 6.0001`. -/
theorem C4_counterexample :
    (2/5 : ℚ) < 6 ∧ (6 : ℚ) < 60001/10000 ∧ (60001/10000 : ℚ) ≤ 141/10 ∧
    tvv (60001/10000) < tvv 6 := by
  refine ⟨by norm_num, by norm_num, by norm_num, ?_⟩
  rw [@tvv_seg2 (60001/10000) (by norm_num) (by norm_num),
    @tvv_seg1 6 (by norm_num) (by norm_num)]
  norm_num

/-- C4 amended: the geometry is constant (350 m³) on `[0, 0.4]` and strictly
increasing *within each* of the three closed-form segments `(0.4, 6]`,
`(6, 8.7]`, `(8.7, 14.1]`, but it jumps *down* by 25 m³ across the segment
boundaries at `h = 6` and `h = 8.7`, so global strict monotonicity fails. -/
theorem C4_piecewise_monotone :
    (∀ h : ℚ, 0 ≤ h → h ≤ 2/5 → tvv h = 350) ∧
    (∀ h1 h2 : ℚ, 2/5 < h1 → h1 < h2 → h2 ≤ 6 → tvv h1 < tvv h2) ∧
    (∀ h1 h2 : ℚ, 6 < h1 → h1 < h2 → h2 ≤ 87/10 → tvv h1 < tvv h2) ∧
    (∀ h1 h2 : ℚ, 87/10 < h1 → h1 < h2 → h2 ≤ 141/10 → tvv h1 < tvv h2) ∧
    tvv (60001/10000) < tvv 6 ∧ tvv (870001/100000) < tvv (87/10) := by
  refine ⟨?_, ?_, ?_, ?_, ?_, ?_⟩
  · intro h h0 h1; exact tvv_flat h0 h1
  · intro h1 h2 ha hb hc
    rw [tvv_seg1 ha (le_of_lt (lt_of_lt_of_le hb hc)), tvv_seg1 (lt_trans ha hb) hc]
    nlinarith [mul_pos (sub_pos.2 hb) (show (0:ℚ) < h2 + h1 - 4/5 by nlinarith)]
  · intro h1 h2 ha hb hc
    rw [tvv_seg2 ha (le_of_lt (lt_of_lt_of_le hb hc)), tvv_seg2 (lt_trans ha hb) hc]
    linarith
  · intro h1 h2 ha hb hc
    rw [tvv_seg3 ha (le_of_lt (lt_of_lt_of_le hb hc)), tvv_seg3 (lt_trans ha hb) hc]
    nlinarith [mul_pos (sub_pos.2 hb) (show (0:ℚ) < 282/10 - h2 - h1 by nlinarith)]
  · rw [@tvv_seg2 (60001/10000) (by norm_num) (by norm_num),
      @tvv_seg1 6 (by norm_num) (by norm_num)]
    norm_num
  · rw [@tvv_seg3 (870001/100000) (by norm_num) (by norm_num),
      @tvv_seg2 (87/10) (by norm_num) (by norm_num)]
    norm_num

/-! ## Claim C1 — minimum dwell time -/

/-- C1 counterexample: `inst1`/`A1` satisfies every emitted constraint, yet
pump 1 changes state at `t = 9` (off→on) and again at `t = 10` (on→off),
because the code emits no dwell constraints for `t + 8 > N`. -/
theorem C1_counterexample :
    SatisfiesModel inst1 A1 ∧ 9 + 1 < numIntervals inst1 ∧
    A1.pumpOn 1 9 ≠ A1.pumpOn 1 8 ∧ A1.pumpOn 1 (9 + 1) ≠ A1.pumpOn 1 9 :=
  ⟨sat1, by decide, by decide, by decide⟩

/-- C1 amended: the dwell property holds for every change at an interval `t`
with `t + 8 ≤ N` (equivalently, outside the last 7 intervals of the horizon):
if `on[p,t]` differs from `on[p,t−1]` (initial state at `t = 0`), then
`on[p,t+d] = on[p,t]` for every `1 ≤ d < 8`. -/
theorem C1_dwell (I : OptInput) (A : PumpAssignment) (p : Fin 8) (t d : ℕ)
    (hs : SatisfiesModel I A) (h8 : t + 8 ≤ numIntervals I)
    (hd1 : 1 ≤ d) (hd8 : d < 8) (hc : A.pumpOn p t ≠ prevOn I A p t) :
    A.pumpOn p (t + d) = A.pumpOn p t := by
  have ht : t < numIntervals I - 1 := by omega
  have hon := hs.dwell_keep_on p t ht h8 d hd8 hd1
  have hoff := hs.dwell_keep_off p t ht h8 d hd8 hd1
  cases hcur : A.pumpOn p t <;> cases hprev : prevOn I A p t <;>
    cases htd : A.pumpOn p (t + d) <;> simp_all [b2i]

/-- Witness for C1: in `inst3`/`A3` pump 0 switches on at `t = 0` (within the
constrained region) and the amended dwell theorem forces `on[0,1] = on[0,0]`. -/
theorem C1_dwell_witness :
    0 + 8 ≤ numIntervals inst3 ∧ A3.pumpOn 0 0 ≠ prevOn inst3 A3 0 0 ∧
    A3.pumpOn 0 (0 + 1) = A3.pumpOn 0 0 :=
  ⟨by decide, by decide,
    C1_dwell inst3 A3 0 0 1 sat3 (by decide) (le_refl 1) (by norm_num) (by decide)⟩

/-! ## Claim C7 — deadline low-level visit -/

/-- C7: whenever the input provides `underThresholdWithinMinutes = dl`, every
assignment satisfying the emitted constraints reaches volume
`≤ ⌊V(0.5)⌋` at some index `t ≤ ⌊dl/15⌋`; and with the field absent no such
constraint is emitted — witnessed by the satisfying assignment `inst1`/`A1`
whose volume stays strictly above the threshold for the whole horizon. -/
theorem C7_deadline_visit (I : OptInput) (A : PumpAssignment) (dl : ℕ)
    (hs : SatisfiesModel I A) (hdl : I.underThresholdWithinMinutes = some dl) :
    (∃ t, t ≤ dl / 15 ∧ A.volume t ≤ lowLevelVolume) ∧
    (SatisfiesModel inst1 A1 ∧ inst1.underThresholdWithinMinutes = none ∧
      ∀ t, t ≤ numIntervals inst1 → lowLevelVolume < A1.volume t) := by
  constructor
  · obtain ⟨t, ht, hv⟩ := hs.deadline_visit dl (Option.mem_def.2 hdl)
    refine ⟨t, ?_, hv⟩
    have h1 : t ≤ min (dl / 15) (numIntervals I) := Nat.lt_succ_iff.1 (Finset.mem_range.1 ht)
    exact le_trans h1 (Nat.min_le_left _ _)
  · refine ⟨sat1, rfl, ?_⟩
    simp only [lowLevelVolume_eq]
    decide

/-- Witness for C7 at `inst3`/`A3` (deadline 60 min, visit at `t = 0`). -/
theorem C7_deadline_visit_witness :
    (∃ t, t ≤ 60 / 15 ∧ A3.volume t ≤ lowLevelVolume) ∧
    (SatisfiesModel inst1 A1 ∧ inst1.underThresholdWithinMinutes = none ∧
      ∀ t, t ≤ numIntervals inst1 → lowLevelVolume < A1.volume t) :=
  C7_deadline_visit inst3 A3 60 sat3 rfl

/-! ## Claim C10 — locked minutes exceeding the horizon -/

/-- C10: the initial-state lock is applied only for
`t < min(lockedIntervals, N)`, so an arbitrarily large non-negative locked
duration is harmless: when `lockedIntervals ≥ N` every satisfying assignment
holds the pump at its initial state for the whole horizon.  Moreover
`lockedIntervals` is exactly `⌈minutes/15⌉`. -/
theorem C10_locked_overflow (I : OptInput) (A : PumpAssignment) (p : Fin 8)
    (hs : SatisfiesModel I A) (hlock : numIntervals I ≤ lockedIntervalsOf I p) :
    (∀ t, t < numIntervals I → A.pumpOn p t = I.initOn p) ∧
    (∀ (J : OptInput) (q : Fin 8),
      (lockedIntervalsOf J q : ℤ) = ⌈(J.lockedMinutes q : ℚ) / 15⌉) := by
  constructor
  · intro t htN
    exact hs.initial_lock p t (by rw [Nat.min_eq_right hlock]; exact htN)
  · intro J q
    unfold lockedIntervalsOf
    set m := J.lockedMinutes q with hm
    have h1 : 15 * ((m + 14) / 15) ≤ m + 14 := by omega
    have h2 : m + 14 < 15 * ((m + 14) / 15) + 15 := by omega
    generalize hk : (m + 14) / 15 = k at h1 h2 ⊢
    symm
    rw [Int.ceil_eq_iff]
    have h3 : m ≤ 15 * k := by omega
    have h1q : (15:ℚ) * (k:ℚ) ≤ (m:ℚ) + 14 := by exact_mod_cast h1
    have h3q : (m:ℚ) ≤ 15 * (k:ℚ) := by exact_mod_cast h3
    constructor
    · rw [lt_div_iff (by norm_num : (0:ℚ) < 15)]
      push_cast
      linarith
    · rw [div_le_iff (by norm_num : (0:ℚ) < 15)]
      push_cast
      linarith
/-- Witness for C10 at `inst4`/`A4`: pump 0 is locked for 300 min
(20 intervals ≥ the 16-interval horizon) and stays on throughout. -/
theorem C10_locked_overflow_witness :
    numIntervals inst4 ≤ lockedIntervalsOf inst4 0 ∧
    (∀ t, t < numIntervals inst4 → A4.pumpOn 0 t = inst4.initOn 0) :=
  ⟨by decide, (C10_locked_overflow inst4 A4 0 sat4 (by decide)).1⟩

/-! ## Claim C2 — the reported total cost -/

/-- The power component of the catalog does not depend on the level at all. -/
theorem pump_power_const (p : Fin 8) (x y : ℚ) :
    (get_pump_specs p x).1 = (get_pump_specs p y).1 := by
  unfold get_pump_specs
  cases pumpIsSmall p <;> simp [small_pump, big_pump]

/-- The power component is non-negative (185 or 350 kW). -/
theorem pump_power_nonneg (p : Fin 8) (x : ℚ) : 0 ≤ (get_pump_specs p x).1 := by
  unfold get_pump_specs
  cases pumpIsSmall p <;> norm_num [small_pump, big_pump]

/-- C2 counterexample: with a negative electricity price (−10 c/kWh, `inst2`)
the satisfying assignment `A1` yields a strictly negative reported total cost
(−82.75 €), refuting unconditional non-negativity. -/
theorem C2_counterexample : SatisfiesModel inst2 A1 ∧ totalCostEur inst2 A1 < 0 := by
  refine ⟨sat2, ?_⟩
  simp +decide only [totalCostEur, numIntervals, inst2, A1, electricityPrice, intervalHours,
    pumpAvgSpecs, get_pump_specs, pumpIsSmall, small_pump, big_pump, avgWaterLevel,
    minWaterLevel, maxWaterLevel, Finset.sum_range_succ, Finset.sum_range_zero,
    Fin.sum_univ_eight]
  norm_num

/-- C2 amended: the reported `total_cost_eur` contains only the electricity
component and equals the spec's post-hoc formula
`Σ_t Σ_{p active} P(h(V[t]))·Δ·price[t]` *exactly* (the pump powers are
level-independent, so evaluating at the reconstructed level changes nothing);
it is non-negative provided every electricity price in the horizon is
non-negative — with negative spot prices it can be negative. -/
theorem C2_total_cost (I : OptInput) (A : PumpAssignment) (hs : SatisfiesModel I A)
    (hp : ∀ t, t < numIntervals I → 0 ≤ I.priceCents t) :
    0 ≤ totalCostEur I A ∧ totalCostEur I A = specCostFormula I A := by
  constructor
  · apply Finset.sum_nonneg
    intro t ht
    apply Finset.sum_nonneg
    intro p _
    have hpr : 0 ≤ electricityPrice I t := by
      have := hp t (Finset.mem_range.1 ht)
      unfold electricityPrice
      positivity
    split
    · apply mul_nonneg (mul_nonneg ?_ (by norm_num [intervalHours])) hpr
      exact pump_power_nonneg p avgWaterLevel
    · exact le_refl 0
  · apply Finset.sum_congr rfl
    intro t _
    apply Finset.sum_congr rfl
    intro p _
    unfold pumpAvgSpecs
    rw [pump_power_const p avgWaterLevel (waterLevelAt A t)]

/-- Witness for C2 at `inst3`/`A3` (all prices 5 c/kWh). -/
theorem C2_total_cost_witness :
    0 ≤ totalCostEur inst3 A3 ∧ totalCostEur inst3 A3 = specCostFormula inst3 A3 :=
  C2_total_cost inst3 A3 sat3 (fun t _ => by norm_num [inst3])

/-! ## Claim C9 — termination of the bisection -/

theorem tunnel_volume_defined {h : ℚ} (h0 : 0 ≤ h) (h1 : h ≤ 141/10) :
    tunnel_volume h = some (tvv h) := by
  have hs : (tunnel_volume h).isSome = true := by
    unfold tunnel_volume
    split_ifs with c0 c1 c2 c3 c4
    · exact absurd c0 (not_lt.2 h0)
    · rfl
    · rfl
    · rfl
    · rfl
    · exact absurd (le_trans h1 (by norm_num)) c4
  obtain ⟨w, hw⟩ := Option.isSome_iff_exists.1 hs
  rw [tvv, hw]
  rfl

theorem bisect_isSome (n : ℕ) : ∀ (low high v : ℚ), 0 ≤ low → high ≤ 141/10 →
    low ≤ high → high - low ≤ 0.001 * 2 ^ n → (bisect (n + 1) low high v).isSome = true := by
  induction n with
  | zero =>
    intro low high v h0 h1 h2 hw
    rw [bisect_exit 0 (by norm_num at hw ⊢; linarith)]
    rfl
  | succ m ih =>
    intro low high v h0 h1 h2 hw
    by_cases hx : high - low ≤ 0.001
    · rw [bisect_exit (m + 1) hx]
      rfl
    · have hlh : low < high := by
        by_contra hc
        push_neg at hc
        norm_num at hx
        linarith
      have hmid0 : 0 ≤ (low + high) / 2 := by linarith
      have hmid1 : (low + high) / 2 ≤ 141/10 := by linarith
      have hd := tunnel_volume_defined hmid0 hmid1
      have hpow : (0.001 : ℚ) * 2 ^ (m + 1) = (0.001 * 2 ^ m) * 2 := by ring
      rcases lt_or_le (tvv ((low + high) / 2)) v with hc | hc
      · rw [bisect_step_low (m + 1) low high v _ hx hd hc]
        exact ih _ _ v hmid0 h1 (by linarith) (by rw [hpow] at hw; linarith)
      · rw [bisect_step_high (m + 1) low high v _ hx hd (not_lt.2 hc)]
        exact ih _ _ v h0 hmid1 (by linarith) (by rw [hpow] at hw; linarith)

/-- C9: `height_from_volume_approx` returns a value for *every* rational
volume: either the `≤ 350` shortcut fires, or the bisection loop — whose
bracket width is exactly halved each iteration starting from 14.1 and which
exits as soon as the width is at most 1e-3 — exits within 14 iterations
(fuel 20 is never exhausted). -/
theorem C9_height_from_volume_terminates (v : ℚ) :
    (height_from_volume_approx v).isSome = true := by
  unfold height_from_volume_approx
  split_ifs with hv
  · rfl
  · exact bisect_isSome 19 0 14.1 v (le_refl 0) (by norm_num) (by norm_num) (by norm_num)

/-! ## Claim C3 — bisection round trip

`tunnel_volume` is not monotone across the 25 m³ drops at 6 m and 8.7 m, but
raising the level by at least `g = 93/100000` m (the worst-case recovery
distance past a drop) always strictly increases the volume.  This is what the
bracket invariant of the bisection needs. -/

theorem tvv_lt_of_gap {x y : ℚ} (hy0 : 0 ≤ y) (hx1 : x ≤ 141/10) (hx4 : 2/5 < x)
    (hgap : y + 93/100000 ≤ x) : tvv y < tvv x := by
  rcases le_or_lt x 6 with hx6 | hx6
  · rw [tvv_seg1 hx4 hx6]
    rcases le_or_lt y (2/5) with hy4 | hy4
    · rw [tvv_flat hy0 hy4]
      nlinarith [mul_pos (sub_pos.2 hx4) (sub_pos.2 hx4)]
    · rw [tvv_seg1 hy4 (by linarith)]
      nlinarith [mul_pos (show (0:ℚ) < x - y by linarith)
        (show (0:ℚ) < x + y - 4/5 by linarith)]
  rcases le_or_lt x (87/10) with hx87 | hx87
  · rw [tvv_seg2 hx6 hx87]
    rcases le_or_lt y (2/5) with hy4 | hy4
    · rw [tvv_flat hy0 hy4]
      linarith
    rcases le_or_lt y 6 with hy6 | hy6
    · rw [tvv_seg1 hy4 hy6]
      rcases le_or_lt y (29/5) with hy58 | hy58
      · nlinarith [mul_nonneg (show (0:ℚ) ≤ 29/5 - y by linarith)
          (show (0:ℚ) ≤ y + 5 by linarith)]
      · nlinarith [mul_nonneg (show (0:ℚ) ≤ y - 29/5 by linarith)
          (show (0:ℚ) ≤ 6 - y by linarith)]
    · rw [tvv_seg2 hy6 (by linarith)]
      linarith
  · rw [tvv_seg3 hx87 hx1]
    rcases le_or_lt y (2/5) with hy4 | hy4
    · rw [tvv_flat hy0 hy4]
      nlinarith [mul_pos (show (0:ℚ) < x - 87/10 by linarith)
        (show (0:ℚ) < 195/10 - x by linarith)]
    rcases le_or_lt y 6 with hy6 | hy6
    · rw [tvv_seg1 hy4 hy6]
      nlinarith [mul_nonneg (show (0:ℚ) ≤ 6 - y by linarith)
          (show (0:ℚ) ≤ y + 26/5 by linarith),
        mul_pos (show (0:ℚ) < x - 87/10 by linarith)
          (show (0:ℚ) < 195/10 - x by linarith)]
    rcases le_or_lt y (87/10) with hy87 | hy87
    · rw [tvv_seg2 hy6 hy87]
      rcases le_or_lt y (17/2) with hy85 | hy85
      · nlinarith [mul_pos (show (0:ℚ) < x - 87/10 by linarith)
          (show (0:ℚ) < 195/10 - x by linarith)]
      · nlinarith [mul_nonneg (show (0:ℚ) ≤ x - y - 93/100000 by linarith)
            (show (0:ℚ) ≤ 282/10 - x - y - 93/100000 by linarith),
          mul_nonneg (show (0:ℚ) ≤ y - 17/2 by linarith)
            (show (0:ℚ) ≤ 87/10 - y by linarith)]
    · rw [tvv_seg3 hy87 (by linarith)]
      nlinarith [mul_pos (show (0:ℚ) < x - y by linarith)
        (show (0:ℚ) < 282/10 - x - y by linarith)]

theorem tvv_gt_350 {h : ℚ} (h4 : 2/5 < h) (h1 : h ≤ 141/10) : 350 < tvv h := by
  rcases le_or_lt h 6 with c | c
  · rw [tvv_seg1 h4 c]
    nlinarith [mul_pos (sub_pos.2 h4) (sub_pos.2 h4)]
  rcases le_or_lt h (87/10) with c2 | c2
  · rw [tvv_seg2 c c2]
    linarith
  · rw [tvv_seg3 c2 h1]
    nlinarith [mul_pos (show (0:ℚ) < h - 87/10 by linarith)
      (show (0:ℚ) < 195/10 - h by linarith)]

theorem tvv_le_top {h : ℚ} (h0 : 0 ≤ h) (h1 : h ≤ 141/10) : tvv h ≤ 225850 := by
  rcases le_or_lt h (2/5) with c | c
  · rw [tvv_flat h0 c]; norm_num
  rcases le_or_lt h 6 with c2 | c2
  · rw [tvv_seg1 c c2]
    nlinarith [mul_nonneg (show (0:ℚ) ≤ 6 - h by linarith)
      (show (0:ℚ) ≤ h + 26/5 by linarith)]
  rcases le_or_lt h (87/10) with c3 | c3
  · rw [tvv_seg2 c2 c3]
    linarith
  · rw [tvv_seg3 c3 h1]
    nlinarith [sq_nonneg (141/10 - h)]

theorem bisect_close (n : ℕ) : ∀ (low high v h r : ℚ), 0 ≤ low → high ≤ 141/10 →
    low < high → 2/5 < h → h ≤ 141/10 → tvv h = v → tvv low < v → v ≤ tvv high →
    bisect n low high v = some r → |h - r| ≤ 143/100000 := by
  induction n with
  | zero =>
    intro low high v h r _ _ _ _ _ _ _ _ hb
    simp [bisect] at hb
  | succ m ih =>
    intro low high v h r h0 h1 hlh hh4 hh1 hv hlo hhi hb
    by_cases hx : high - low ≤ 0.001
    · rw [bisect_exit m hx] at hb
      obtain rfl : ((low + high) / 2 : ℚ) = r := Option.some.inj hb
      have hhig : h < high + 93/100000 := by
        by_contra hc
        push_neg at hc
        have hkey := tvv_lt_of_gap (show (0:ℚ) ≤ high by linarith) hh1 hh4 hc
        rw [hv] at hkey
        linarith
      have hlog : low - 93/100000 < h := by
        by_contra hc
        push_neg at hc
        have hkey := tvv_lt_of_gap (show (0:ℚ) ≤ h by linarith)
          (show low ≤ 141/10 by linarith) (show 2/5 < low by linarith)
          (show h + 93/100000 ≤ low by linarith)
        rw [hv] at hkey
        linarith
      rw [abs_le]
      norm_num at hx
      constructor <;> [skip; skip] <;> linarith
    · have hmid0 : 0 ≤ (low + high) / 2 := by linarith
      have hmid1 : (low + high) / 2 ≤ 141/10 := by linarith
      have hd := tunnel_volume_defined hmid0 hmid1
      rcases lt_or_le (tvv ((low + high) / 2)) v with hc | hc
      · rw [bisect_step_low m low high v _ hx hd hc] at hb
        exact ih _ _ v h r hmid0 h1 (by linarith) hh4 hh1 hv hc hhi hb
      · rw [bisect_step_high m low high v _ hx hd (not_lt.2 hc)] at hb
        exact ih low _ v h r h0 hmid1 (by linarith) hh4 hh1 hv hlo hc hb

/-- C3 amended: for levels in `(0.4, 14.1]` the round trip through the
geometry and its bisection inverse is within `1.5e-3` (the claimed `1e-3`
fails: on `(0, 0.4]` the `V ≤ 350` shortcut maps everything to 0, and near the
geometry's non-monotone drops at 6 m and 8.7 m the bracket can land on the
other branch, up to `5e-4 + 9.3e-4` away). -/
theorem C3_roundtrip (h : ℚ) (h4 : 2/5 < h) (h1 : h ≤ 141/10) :
    |h - ((height_from_volume_approx ((tunnel_volume h).getD 0)).getD 0)| ≤ 3/2000 := by
  have h0 : (0:ℚ) ≤ h := by linarith
  rw [tunnel_volume_defined h0 h1, Option.getD_some]
  have hgt : 350 < tvv h := tvv_gt_350 h4 h1
  rw [height_from_volume_approx, if_neg (not_le.2 hgt)]
  have hsome := bisect_isSome 19 0 14.1 (tvv h) (le_refl 0) (by norm_num) (by norm_num)
    (by norm_num)
  obtain ⟨r, hr⟩ := Option.isSome_iff_exists.1 hsome
  rw [hr, Option.getD_some]
  have hclose := bisect_close 20 0 14.1 (tvv h) h r (le_refl 0) (by norm_num) (by norm_num)
    h4 h1 rfl ?_ ?_ hr
  · linarith [hclose, abs_nonneg (h - r)]
  · rw [tvv_flat (le_refl 0) (by norm_num)]
    exact hgt
  · rw [show (14.1:ℚ) = 141/10 by norm_num, tvv_seg3 (by norm_num) (le_refl _)]
    have := tvv_le_top h0 h1
    nlinarith [this]

/-- Witness for C3 at `h = 5`. -/
theorem C3_roundtrip_witness :
    (2/5 : ℚ) < 5 ∧ (5:ℚ) ≤ 141/10 ∧
    |(5:ℚ) - ((height_from_volume_approx ((tunnel_volume 5).getD 0)).getD 0)| ≤ 3/2000 :=
  ⟨by norm_num, by norm_num, C3_roundtrip 5 (by norm_num) (by norm_num)⟩

/-- C3 counterexample: the 1e-3 round-trip bound fails at `h = 0.4` (where
`V(h) = 350` so the inverse returns 0, error 0.4) *and* inside `(0.4, 14.1]`
at `h = 5.99918`, whose volume lies in the non-monotone overlap created by the
25 m³ drop at 6 m: the bisection converges to 6.0000152…, error ≈ 1.32e-3. -/
theorem C3_counterexample :
    (0 ≤ (2/5 : ℚ) ∧ (2/5 : ℚ) ≤ 141/10 ∧
      ¬ |(2/5 : ℚ) - ((height_from_volume_approx ((tunnel_volume (2/5)).getD 0)).getD 0)|
        ≤ 1/1000) ∧
    (0 ≤ (299959/50000 : ℚ) ∧ (299959/50000 : ℚ) ≤ 141/10 ∧
      ¬ |(299959/50000 : ℚ) -
          ((height_from_volume_approx ((tunnel_volume (299959/50000)).getD 0)).getD 0)|
        ≤ 1/1000) := by
  constructor
  · refine ⟨by norm_num, by norm_num, ?_⟩
    rw [show tunnel_volume (2/5) = some 350 from by norm_num [tunnel_volume]]
    norm_num [height_from_volume_approx]
    rw [abs_of_nonneg (by norm_num : (0:ℚ) ≤ 2/5)]
    norm_num
  · refine ⟨by norm_num, by norm_num, ?_⟩
    rw [show tunnel_volume (299959/50000) = some (78727041681/1000000) from by
      norm_num [tunnel_volume]]
    rw [Option.getD_some]
    have h2 : height_from_volume_approx (78727041681/1000000) = some (393249/65536) := by
      rw [height_from_volume_approx, if_neg (by norm_num)]
      norm_num
      rw [bisect_step_high 19 (0 : ℚ) (141/10 : ℚ) (78727041681/1000000 : ℚ) (107600 : ℚ) (by norm_num) (by norm_num [tunnel_volume]) (by norm_num)]
      norm_num
      rw [bisect_step_low 18 (0 : ℚ) (141/20 : ℚ) (78727041681/1000000 : ℚ) (396225/16 : ℚ) (by norm_num) (by norm_num [tunnel_volume]) (by norm_num)]
      norm_num
      rw [bisect_step_low 17 (141/40 : ℚ) (141/20 : ℚ) (78727041681/1000000 : ℚ) (3844425/64 : ℚ) (by norm_num) (by norm_num [tunnel_volume]) (by norm_num)]
      norm_num
      rw [bisect_step_high 16 (423/80 : ℚ) (141/20 : ℚ) (78727041681/1000000 : ℚ) (666925/8 : ℚ) (by norm_num) (by norm_num [tunnel_volume]) (by norm_num)]
      norm_num
      rw [bisect_step_low 15 (423/80 : ℚ) (987/160 : ℚ) (78727041681/1000000 : ℚ) (73034025/1024 : ℚ) (by norm_num) (by norm_num [tunnel_volume]) (by norm_num)]
      norm_num
      rw [bisect_step_low 14 (1833/320 : ℚ) (987/160 : ℚ) (78727041681/1000000 : ℚ) (316673625/4096 : ℚ) (by norm_num) (by norm_num [tunnel_volume]) (by norm_num)]
      norm_num
      rw [bisect_step_high 13 (3807/640 : ℚ) (987/160 : ℚ) (78727041681/1000000 : ℚ) (5141525/64 : ℚ) (by norm_num) (by norm_num [tunnel_volume]) (by norm_num)]
      norm_num
      rw [bisect_step_high 12 (3807/640 : ℚ) (1551/256 : ℚ) (78727041681/1000000 : ℚ) (10089175/128 : ℚ) (by norm_num) (by norm_num [tunnel_volume]) (by norm_num)]
      norm_num
      rw [bisect_step_low 11 (3807/640 : ℚ) (15369/2560 : ℚ) (78727041681/1000000 : ℚ) (20467885425/262144 : ℚ) (by norm_num) (by norm_num [tunnel_volume]) (by norm_num)]
      norm_num
      rw [bisect_step_low 10 (30597/5120 : ℚ) (15369/2560 : ℚ) (78727041681/1000000 : ℚ) (82274579625/1048576 : ℚ) (by norm_num) (by norm_num [tunnel_volume]) (by norm_num)]
      norm_num
      rw [bisect_step_low 9 (12267/2048 : ℚ) (15369/2560 : ℚ) (78727041681/1000000 : ℚ) (329905885425/4194304 : ℚ) (by norm_num) (by norm_num [tunnel_volume]) (by norm_num)]
      norm_num
      rw [bisect_step_low 8 (122811/20480 : ℚ) (15369/2560 : ℚ) (78727041681/1000000 : ℚ) (161232925/2048 : ℚ) (by norm_num) (by norm_num [tunnel_volume]) (by norm_num)]
      norm_num
      rw [bisect_step_high 7 (245763/40960 : ℚ) (15369/2560 : ℚ) (78727041681/1000000 : ℚ) (322659725/4096 : ℚ) (by norm_num) (by norm_num [tunnel_volume]) (by norm_num)]
      norm_num
      rw [bisect_step_high 6 (245763/40960 : ℚ) (491667/81920 : ℚ) (78727041681/1000000 : ℚ) (645125575/8192 : ℚ) (by norm_num) (by norm_num [tunnel_volume]) (by norm_num)]
      norm_num
      rw [bisect_exit 5 (by norm_num)]
      norm_num
    rw [h2, Option.getD_some]
    rw [abs_sub_comm, abs_of_nonneg (by norm_num)]
    norm_num
